import Mathlib

/-!
Verification of the destiintt booking/approval workflow against its
documented contract.  The repository ships the workflow only as an HTTP
test-case document (`src/unnamed/part_001`) together with UI glue; the
validation engine, workflow state machine, booking repository and payment
orchestrator themselves are not present as code, so they are modelled
here from the specification's words and the documented request/response
pairs.  The CRM sidebar injection script
(`src/destiin/public/js/destiin_crm_sidebar.js`) is real source and is
embedded directly.
-/

namespace Destiin

/-- A minimal JSON scalar: the documented payloads only ever need to
distinguish string values from numeric values at the points the
validation rules inspect. -/
inductive JVal where
  | jstr (s : String)
  | jnum (n : Int)
deriving DecidableEq, Repr

/-- The `hotel` field of a booking payload: either a JSON object carrying
an optional `id`, or a non-object scalar (test CB_N22 sends a string). -/
inductive HotelVal where
  | hobj (id : Option JVal)
  | hprim (v : JVal)
deriving DecidableEq, Repr

/-- Extract the string of a JSON value, defaulting to the empty string. -/
def getStr : Option JVal → String
  | some (.jstr s) => s
  | _ => ""

/-- Extract the number of a JSON value, defaulting to zero. -/
def getNum : Option JVal → Int
  | some (.jnum n) => n
  | _ => 0

/-- Numeric value of an ISO `YYYY-MM-DD` date string, or `none` when the
string is not in that shape.  The value `y*10000 + m*100 + d` orders
dates exactly as the calendar does for fixed-width ISO strings. -/
def parseDate (s : String) : Option Nat :=
  match s.toList with
  | [y1, y2, y3, y4, s1, m1, m2, s2, d1, d2] =>
    if s1 == '-' && s2 == '-' && y1.isDigit && y2.isDigit && y3.isDigit && y4.isDigit
        && m1.isDigit && m2.isDigit && d1.isDigit && d2.isDigit then
      some ((((((((y1.toNat - 48) * 10 + (y2.toNat - 48)) * 10 + (y3.toNat - 48)) * 10
        + (y4.toNat - 48)) * 10 + (m1.toNat - 48)) * 10 + (m2.toNat - 48)) * 10
        + (d1.toNat - 48)) * 10 + (d2.toNat - 48))
    else none
  | _ => none

/-- Errors of the documented taxonomy (section 7 of the design notes):
validation (400), not-found (404), conflict (400, state/uniqueness) and
authorization (401/403), each carrying the documented message. -/
inductive ApiError where
  | validationError (msg : String)
  | notFoundError (msg : String)
  | conflictError (msg : String)
  | authorizationError (msg : String)
deriving DecidableEq, Repr

/-- Modelled from the spec: the validation engine applies its checks "in
a fixed, deterministic order so that the first violated rule determines
the reported error"; `runChecks` runs an ordered rule list and returns
the first failure. -/
def runChecks {α : Type} (cs : List (α → Option ApiError)) (p : α) : Option ApiError :=
  match cs with
  | [] => none
  | c :: rest =>
    match c p with
    | some e => some e
    | none => runChecks rest p

theorem runChecks_eq_head? {α : Type} (cs : List (α → Option ApiError)) (p : α) :
    runChecks cs p = (cs.filterMap (fun c => c p)).head? := by
  induction cs with
  | nil => rfl
  | cons c rest ih =>
    simp only [runChecks, List.filterMap_cons]
    cases h : c p with
    | none => simpa [h] using ih
    | some e => simp [h]

theorem runChecks_eq_none_iff {α : Type} (cs : List (α → Option ApiError)) (p : α) :
    runChecks cs p = none ↔ ∀ c ∈ cs, c p = none := by
  induction cs with
  | nil => simp [runChecks]
  | cons c rest ih =>
    simp only [runChecks]
    cases h : c p with
    | none => simp [h, ih]
    | some e => simp [h]

/-- Modelled from the spec: the `confirm_booking` / `create_booking`
payload, with every documented field optional so that the presence rules
are observable (fields absent from the JSON body are `none`). -/
structure CBPayload where
  clientReference : Option JVal := none
  bookingId : Option JVal := none
  hotelConfirmationNo : Option JVal := none
  status : Option JVal := none
  hotel : Option HotelVal := none
  checkIn : Option JVal := none
  checkOut : Option JVal := none
  totalPrice : Option JVal := none
  numOfRooms : Option JVal := none
deriving DecidableEq, Repr

/-- A room entry inside a request booking's `hotel_details.rooms`. -/
structure RoomP where
  room_id : Option JVal := none
  price : Option JVal := none
  total_price : Option JVal := none
deriving DecidableEq, Repr

/-- The `hotel_details` field: a JSON object with `hotel_id` and `rooms`,
or a non-object scalar (test SRB_N13 sends a string). -/
inductive HDVal where
  | hdobj (hotel_id : Option JVal) (rooms : List RoomP)
  | hdprim (v : JVal)
deriving DecidableEq, Repr

/-- Modelled from the spec: the `store_req_booking` payload. -/
structure SRBPayload where
  request_booking_id : Option JVal := none
  employee : Option JVal := none
  company : Option JVal := none
  check_in : Option JVal := none
  check_out : Option JVal := none
  occupancy : Option JVal := none
  adult_count : Option JVal := none
  child_count : Option JVal := none
  room_count : Option JVal := none
  destination : Option JVal := none
  destination_code : Option JVal := none
  hotel_details : Option HDVal := none
deriving DecidableEq, Repr

/-- Rule 1 of the validation order: the field must be present. -/
def presentCheck {α : Type} (get : α → Option JVal) (fname : String) :
    α → Option ApiError :=
  fun p => if (get p).isNone then some (.validationError (fname ++ " is required")) else none

/-- Rule 2: a string field that is present must not be blank. -/
def nonEmptyCheck {α : Type} (get : α → Option JVal) (fname : String) :
    α → Option ApiError :=
  fun p =>
    match get p with
    | some (.jstr "") => some (.validationError (fname ++ " cannot be empty"))
    | _ => none

/-- Rule 3: a numeric field rejects non-numeric values. -/
def numericCheck {α : Type} (get : α → Option JVal) (fname : String) :
    α → Option ApiError :=
  fun p =>
    match get p with
    | some (.jstr _) => some (.validationError (fname ++ " must be numeric"))
    | _ => none

/-- Rule 4 (non-negative form): a numeric field must be `≥ 0`. -/
def nonNegCheck {α : Type} (get : α → Option JVal) (fname : String) :
    α → Option ApiError :=
  fun p =>
    match get p with
    | some (.jnum n) =>
      if n < 0 then some (.validationError (fname ++ " must be non-negative")) else none
    | _ => none

/-- Rule 4 (strictly positive form): a numeric field must be `> 0`. -/
def positiveCheck {α : Type} (get : α → Option JVal) (fname : String) :
    α → Option ApiError :=
  fun p =>
    match get p with
    | some (.jnum n) =>
      if n ≤ 0 then some (.validationError (fname ++ " must be positive")) else none
    | _ => none

/-- Rule 5: enum membership against the fixed allowed set, with the
documented message enumerating that set. -/
def enumCheck {α : Type} (get : α → Option JVal) (allowed : List String) (msg : String) :
    α → Option ApiError :=
  fun p =>
    match get p with
    | some (.jstr s) =>
      if s == "" || allowed.contains s then none else some (.validationError msg)
    | some (.jnum _) => some (.validationError msg)
    | none => none

/-- Rule 6 (first half): date well-formedness, ISO `YYYY-MM-DD`. -/
def dateFormatCheck {α : Type} (get : α → Option JVal) (msg : String) :
    α → Option ApiError :=
  fun p =>
    match get p with
    | some (.jstr s) =>
      if s == "" then none
      else if (parseDate s).isNone then some (.validationError msg) else none
    | some (.jnum _) => some (.validationError msg)
    | none => none

/-- Rule 6 (second half): the check-out date must be strictly after the
check-in date, once both parse. -/
def dateOrderCheck {α : Type} (getIn getOut : α → Option JVal) (msg : String) :
    α → Option ApiError :=
  fun p =>
    match parseDate (getStr (getIn p)), parseDate (getStr (getOut p)) with
    | some di, some dOut =>
      if dOut ≤ di then some (.validationError msg) else none
    | _, _ => none

/-- The check-in date must not lie before `today` (store-request rule,
test SRB_N08). -/
def notPastCheck {α : Type} (get : α → Option JVal) (today : Nat) (msg : String) :
    α → Option ApiError :=
  fun p =>
    match parseDate (getStr (get p)) with
    | some d => if d < today then some (.validationError msg) else none
    | none => none

/-- The `hotel` field, when present, must be a JSON object (CB_N22). -/
def hotelObjectCheck : CBPayload → Option ApiError :=
  fun p =>
    match p.hotel with
    | some (.hprim _) => some (.validationError "hotel must be an object")
    | _ => none

/-- `hotel.id` must be present once `hotel` is an object (CB_N08). -/
def hotelIdCheck : CBPayload → Option ApiError :=
  fun p =>
    match p.hotel with
    | some (.hobj none) => some (.validationError "hotel.id is required")
    | _ => none

/-- Modelled from the spec: the structural rule list for the
confirm/create booking payload, rules in the fixed order
presence, non-empty, type, range, enum, date, and within each rule the
fields in declaration order (section 4.1). -/
def cbChecks : List (CBPayload → Option ApiError) :=
  [ presentCheck (fun p => p.clientReference) "clientReference"
  , presentCheck (fun p => p.bookingId) "bookingId"
  , presentCheck (fun p => p.hotelConfirmationNo) "hotelConfirmationNo"
  , presentCheck (fun p => p.status) "status"
  , fun p => if p.hotel.isNone then some (.validationError "hotel is required") else none
  , hotelIdCheck
  , presentCheck (fun p => p.checkIn) "checkIn"
  , presentCheck (fun p => p.checkOut) "checkOut"
  , presentCheck (fun p => p.totalPrice) "totalPrice"
  , presentCheck (fun p => p.numOfRooms) "numOfRooms"
  , nonEmptyCheck (fun p => p.clientReference) "clientReference"
  , nonEmptyCheck (fun p => p.bookingId) "bookingId"
  , nonEmptyCheck (fun p => p.hotelConfirmationNo) "hotelConfirmationNo"
  , nonEmptyCheck (fun p => p.status) "status"
  , nonEmptyCheck (fun p => p.checkIn) "checkIn"
  , nonEmptyCheck (fun p => p.checkOut) "checkOut"
  , hotelObjectCheck
  , numericCheck (fun p => p.totalPrice) "totalPrice"
  , numericCheck (fun p => p.numOfRooms) "numOfRooms"
  , nonNegCheck (fun p => p.totalPrice) "totalPrice"
  , positiveCheck (fun p => p.numOfRooms) "numOfRooms"
  , enumCheck (fun p => p.status) ["confirmed", "cancelled", "pending", "completed"]
      "Invalid status. Must be one of: confirmed, cancelled, pending, completed"
  , dateFormatCheck (fun p => p.checkIn) "Invalid date format for checkIn"
  , dateFormatCheck (fun p => p.checkOut) "Invalid date format for checkOut"
  , dateOrderCheck (fun p => p.checkIn) (fun p => p.checkOut) "checkOut must be after checkIn"
  ]

/-- Modelled from the spec: the structural validator for confirm/create
booking; returns the first violated rule's error, or `none` when the
payload passes all structural checks. -/
def validate_confirm_booking (p : CBPayload) : Option ApiError :=
  runChecks cbChecks p

/-- The list of all structural violations of a confirm-booking payload,
in rule order; the engine reports exactly its head. -/
def cbViolations (p : CBPayload) : List ApiError :=
  cbChecks.filterMap (fun c => c p)

/-- `hotel_details`, when present, must be a JSON object (SRB_N13). -/
def hdObjectCheck : SRBPayload → Option ApiError :=
  fun p =>
    match p.hotel_details with
    | some (.hdprim _) => some (.validationError "hotel_details must be an object")
    | _ => none

/-- `hotel_id` is required inside `hotel_details` (SRB_N14). -/
def hdHotelIdCheck : SRBPayload → Option ApiError :=
  fun p =>
    match p.hotel_details with
    | some (.hdobj none _) => some (.validationError "hotel_id is required in hotel_details")
    | _ => none

/-- `rooms` inside `hotel_details` must be non-empty (SRB_N15). -/
def hdRoomsCheck : SRBPayload → Option ApiError :=
  fun p =>
    match p.hotel_details with
    | some (.hdobj (some _) []) => some (.validationError "rooms cannot be empty")
    | _ => none

/-- Every room needs a `room_id` and a non-negative `price`
(SRB_N16/SRB_N17), first offending room reported. -/
def hdRoomFieldsCheck : SRBPayload → Option ApiError :=
  fun p =>
    match p.hotel_details with
    | some (.hdobj _ rooms) =>
      rooms.findSome? (fun r =>
        if r.room_id.isNone then some (.validationError "room_id is required")
        else
          match r.price with
          | some (.jnum n) =>
            if n < 0 then some (.validationError "price must be non-negative") else none
          | _ => none)
    | _ => none

/-- Modelled from the spec: the structural rule list for the
store-request-booking payload, in the fixed rule order of section 4.1;
the past-date rule compares against the repository's current date. -/
def srbChecks (today : Nat) : List (SRBPayload → Option ApiError) :=
  [ presentCheck (fun p => p.employee) "employee"
  , presentCheck (fun p => p.check_in) "check_in"
  , presentCheck (fun p => p.check_out) "check_out"
  , nonEmptyCheck (fun p => p.employee) "employee"
  , nonEmptyCheck (fun p => p.check_in) "check_in"
  , nonEmptyCheck (fun p => p.check_out) "check_out"
  , hdObjectCheck
  , hdHotelIdCheck
  , hdRoomsCheck
  , hdRoomFieldsCheck
  , numericCheck (fun p => p.occupancy) "occupancy"
  , numericCheck (fun p => p.adult_count) "adult_count"
  , numericCheck (fun p => p.child_count) "child_count"
  , numericCheck (fun p => p.room_count) "room_count"
  , positiveCheck (fun p => p.occupancy) "occupancy"
  , nonNegCheck (fun p => p.adult_count) "adult_count"
  , nonNegCheck (fun p => p.child_count) "child_count"
  , positiveCheck (fun p => p.room_count) "room_count"
  , dateFormatCheck (fun p => p.check_in) "Invalid date format"
  , dateFormatCheck (fun p => p.check_out) "Invalid date format"
  , dateOrderCheck (fun p => p.check_in) (fun p => p.check_out)
      "check_out must be after check_in"
  , notPastCheck (fun p => p.check_in) today "check_in cannot be in the past"
  ]

/-- Modelled from the spec: the structural validator for
store-request-booking payloads. -/
def validate_store_req (today : Nat) (p : SRBPayload) : Option ApiError :=
  runChecks (srbChecks today) p

/-- Modelled from the spec: a persisted booking record (section 3,
"Booking"); dates stored as their parsed numeric value. -/
structure Booking where
  clientReference : String
  bookingId : String
  hotelConfirmationNo : String
  bstatus : String
  hotelId : String
  checkIn : Nat
  checkOut : Nat
  totalPrice : Int
  numOfRooms : Int
deriving DecidableEq, Repr

/-- A room offer stored inside a request booking's hotel details. -/
structure RoomOffer where
  room_id : String
  price : Int
  total_price : Int
deriving DecidableEq, Repr

/-- Hotel details stored on a request booking. -/
structure HotelDetails where
  hotel_id : String
  rooms : List RoomOffer
deriving DecidableEq, Repr

/-- A selection item used by send-for-approval / approve / decline:
a hotel with the chosen room ids. -/
structure SelItem where
  hotel_id : String
  room_ids : List String
deriving DecidableEq, Repr

/-- Modelled from the spec: a persisted request-booking record
(section 3, "RequestBookingDetails"), with per-item approval outcome
tracked as the approved and declined selections. -/
structure ReqBooking where
  rid : String
  employee : String
  company : Option String
  check_in : Nat
  check_out : Nat
  occupancy : Option Int
  adult_count : Option Int
  child_count : Option Int
  room_count : Option Int
  destination : Option String
  destination_code : Option String
  hotel_details : List HotelDetails
  selected : List SelItem
  approved_items : List SelItem
  declined_items : List SelItem
  status : String
deriving DecidableEq, Repr

/-- Modelled from the spec: a payment record (section 3, "Payment"). -/
structure Payment where
  payment_id : String
  mode : String
  pstatus : String
  amount : Int
  request_booking_id : String
deriving DecidableEq, Repr

/-- Modelled from the spec: the booking repository's whole persisted
state, together with the external employee/approver tables and the
current date used by the past-date rule. -/
structure SysState where
  bookings : List Booking
  reqBookings : List ReqBooking
  payments : List Payment
  employees : List String
  approvers : List String
  today : Nat
  counter : Nat
deriving DecidableEq, Repr

/-- The payment statuses the gateway can report back; they are exactly
the terminal payment statuses of the data model. -/
def terminalPayStatuses : List String := ["success", "failure", "cancel"]

/-- A payment status is terminal when it is success, failure or cancel. -/
def isTerminalPay (s : String) : Bool := terminalPayStatuses.contains s

def findReq (st : SysState) (rbid : String) : Option ReqBooking :=
  st.reqBookings.find? (fun r => r.rid == rbid)

def findPay (st : SysState) (pid : String) : Option Payment :=
  st.payments.find? (fun p => p.payment_id == pid)

/-- Replace the request booking with the given id in place. -/
def setReq (st : SysState) (rbid : String) (f : ReqBooking → ReqBooking) : SysState :=
  { st with reqBookings := st.reqBookings.map (fun r => if r.rid == rbid then f r else r) }

/-- Replace the payment with the given id in place. -/
def setPay (st : SysState) (pid : String) (f : Payment → Payment) : SysState :=
  { st with payments := st.payments.map (fun p => if p.payment_id == pid then f p else p) }

/-- A payment is active for a request booking when it references it and
is not yet terminal. -/
def activeFor (rbid : String) (p : Payment) : Bool :=
  p.request_booking_id == rbid && !isTerminalPay p.pstatus

/-- Whether some active (non-terminal) payment exists for the booking. -/
def hasActivePayment (st : SysState) (rbid : String) : Bool :=
  st.payments.any (activeFor rbid)

/-- Modelled from the spec: upsert of a booking record keyed by
`clientReference` — update in place when the reference already exists,
append otherwise (section 3 invariant, test CB_P08). -/
def upsertBooking (bs : List Booking) (b : Booking) : List Booking :=
  if bs.any (fun x => x.clientReference == b.clientReference) then
    bs.map (fun x => if x.clientReference == b.clientReference then b else x)
  else bs ++ [b]

/-- Convert an accepted confirm-booking payload into its record. -/
def bookingOf (p : CBPayload) : Booking :=
  { clientReference := getStr p.clientReference
    bookingId := getStr p.bookingId
    hotelConfirmationNo := getStr p.hotelConfirmationNo
    bstatus := getStr p.status
    hotelId :=
      match p.hotel with
      | some (.hobj (some v)) => getStr (some v)
      | _ => ""
    checkIn := (parseDate (getStr p.checkIn)).getD 0
    checkOut := (parseDate (getStr p.checkOut)).getD 0
    totalPrice := getNum p.totalPrice
    numOfRooms := getNum p.numOfRooms }

def optStr : Option JVal → Option String
  | some (.jstr s) => some s
  | _ => none

def optNum : Option JVal → Option Int
  | some (.jnum n) => some n
  | _ => none

/-- The stored hotel details built from a payload's `hotel_details`. -/
def hdOf : Option HDVal → List HotelDetails
  | some (.hdobj hid rooms) =>
    [{ hotel_id := getStr hid
       rooms := rooms.map (fun r =>
         { room_id := getStr r.room_id
           price := getNum r.price
           total_price := getNum r.total_price }) }]
  | _ => []

/-- Modelled from the spec: `confirm_booking`/`create_booking` —
structural validation, then the hard-uniqueness checks on `bookingId`
and `hotelConfirmationNo` across different client references
(CB_N17/CB_N18), then the upsert keyed by `clientReference`. -/
def confirm_booking (st : SysState) (p : CBPayload) : Except ApiError SysState :=
  match validate_confirm_booking p with
  | some e => .error e
  | none =>
    if st.bookings.any (fun b => b.bookingId == getStr p.bookingId
        && b.clientReference != getStr p.clientReference) then
      .error (.conflictError "Duplicate bookingId exists")
    else if st.bookings.any (fun b => b.hotelConfirmationNo == getStr p.hotelConfirmationNo
        && b.clientReference != getStr p.clientReference) then
      .error (.conflictError "Duplicate hotelConfirmationNo exists")
    else .ok { st with bookings := upsertBooking st.bookings (bookingOf p) }

/-- The fresh record created by a first `store_req_booking`, in status
`req_pending`. -/
def newReqBooking (st : SysState) (p : SRBPayload) : ReqBooking :=
  { rid := "RB-" ++ toString st.counter
    employee := getStr p.employee
    company := optStr p.company
    check_in := (parseDate (getStr p.check_in)).getD 0
    check_out := (parseDate (getStr p.check_out)).getD 0
    occupancy := optNum p.occupancy
    adult_count := optNum p.adult_count
    child_count := optNum p.child_count
    room_count := optNum p.room_count
    destination := optStr p.destination
    destination_code := optStr p.destination_code
    hotel_details := hdOf p.hotel_details
    selected := []
    approved_items := []
    declined_items := []
    status := "req_pending" }

/-- Modelled from the spec: `store_req_booking` — structural validation,
the employee existence check (SRB_N03), then either creation of a fresh
record in `req_pending`, or, when a `request_booking_id` is supplied
(SRB_P07), an in-place update of the existing record's mutable fields
that keeps its dates, destination and status. -/
def store_req_booking (st : SysState) (p : SRBPayload) : Except ApiError SysState :=
  match validate_store_req st.today p with
  | some e => .error e
  | none =>
    if !st.employees.contains (getStr p.employee) then
      .error (.validationError "Employee not found")
    else
      match p.request_booking_id with
      | some (.jstr rbid) =>
        match findReq st rbid with
        | none => .error (.notFoundError "Request booking not found")
        | some _ =>
          .ok (setReq st rbid (fun r =>
            { r with
              occupancy := (optNum p.occupancy).orElse (fun _ => r.occupancy)
              adult_count := (optNum p.adult_count).orElse (fun _ => r.adult_count)
              child_count := (optNum p.child_count).orElse (fun _ => r.child_count)
              room_count := (optNum p.room_count).orElse (fun _ => r.room_count)
              hotel_details := r.hotel_details ++ hdOf p.hotel_details }))
      | _ =>
        .ok { st with
              reqBookings := st.reqBookings ++ [newReqBooking st p]
              counter := st.counter + 1 }

/-- First resolution error among the selected items: each item's
`hotel_id` must name one of the request's own hotels and each of its
`room_ids` one of that hotel's rooms (SFA_N09/SFA_N10). -/
def itemsError (rb : ReqBooking) (items : List SelItem) : Option ApiError :=
  items.findSome? (fun it =>
    match rb.hotel_details.find? (fun hd => hd.hotel_id == it.hotel_id) with
    | none => some (.notFoundError "Hotel not found")
    | some hd =>
      if it.room_ids.all (fun rid => hd.rooms.any (fun r => r.room_id == rid)) then none
      else some (.notFoundError "Room not found"))

/-- Modelled from the spec: `send_for_approval` — valid only from
`req_pending` (section 4.2); records the selection and moves the record
to `req_send_for_approval`. -/
def send_for_approval (st : SysState) (rbid : String) (items : List SelItem) :
    Except ApiError SysState :=
  if rbid == "" then .error (.validationError "request_booking_id cannot be empty")
  else if items.isEmpty then .error (.validationError "selected_items cannot be empty")
  else if items.any (fun it => it.room_ids.isEmpty) then
    .error (.validationError "room_ids cannot be empty")
  else
    match findReq st rbid with
    | none => .error (.notFoundError "Request booking not found")
    | some rb =>
      match itemsError rb items with
      | some e => .error e
      | none =>
        if rb.status != "req_pending" then .error (.conflictError "Cannot send for approval")
        else
          .ok (setReq st rbid (fun r =>
            { r with selected := items, status := "req_send_for_approval" }))

/-- Modelled from the spec: `approve_booking` — valid only from
`req_send_for_approval`; re-approving an already-`req_approved` record
fails with the AlreadyApproved error (AB_N09); tracks the approved
subset per item and advances the aggregate status to `req_approved`. -/
def approve_booking (st : SysState) (rbid employee : String) (items : List SelItem) :
    Except ApiError SysState :=
  if rbid == "" then .error (.validationError "request_booking_id is required")
  else if employee == "" then .error (.validationError "employee is required")
  else if items.isEmpty then .error (.validationError "selected_items cannot be empty")
  else
    match findReq st rbid with
    | none => .error (.notFoundError "Request booking not found")
    | some rb =>
      if !st.employees.contains employee then .error (.notFoundError "Employee not found")
      else if !st.approvers.contains employee then
        .error (.authorizationError "Not authorized to approve")
      else
        match itemsError rb items with
        | some e => .error e
        | none =>
          if rb.status == "req_approved" then
            .error (.conflictError "Booking already approved")
          else if rb.status != "req_send_for_approval" then
            .error (.conflictError "Booking not in approval pending state")
          else
            .ok (setReq st rbid (fun r =>
              { r with
                approved_items := r.approved_items ++ items
                status := "req_approved" }))

/-- Modelled from the spec: `decline_booking` — mirrors approve, valid
from `req_send_for_approval`, marks the items declined and moves the
record to the alternate terminal `req_declined` (section 4.2). -/
def decline_booking (st : SysState) (rbid employee : String) (items : List SelItem) :
    Except ApiError SysState :=
  if rbid == "" then .error (.validationError "request_booking_id is required")
  else if employee == "" then .error (.validationError "employee is required")
  else if items.isEmpty then .error (.validationError "selected_items cannot be empty")
  else
    match findReq st rbid with
    | none => .error (.notFoundError "Request booking not found")
    | some rb =>
      if !st.employees.contains employee then .error (.notFoundError "Employee not found")
      else if !st.approvers.contains employee then
        .error (.authorizationError "Not authorized")
      else
        match itemsError rb items with
        | some e => .error e
        | none =>
          if rb.status != "req_send_for_approval" then
            .error (.conflictError "Cannot decline booking")
          else
            .ok (setReq st rbid (fun r =>
              { r with
                declined_items := r.declined_items ++ items
                status := "req_declined" }))

/-- An update payload for `update_request_booking`; the immutable fields
may still appear in the body and must then be rejected. -/
structure URBPayload where
  occupancy : Option JVal := none
  adult_count : Option JVal := none
  child_count : Option JVal := none
  room_count : Option JVal := none
  destination : Option JVal := none
  check_in : Option JVal := none
  check_out : Option JVal := none
  hotel_details : Option HDVal := none
deriving DecidableEq, Repr

/-- The record update carried out by an accepted update payload. -/
def applyURB (u : URBPayload) (r : ReqBooking) : ReqBooking :=
  { r with
    occupancy := (optNum u.occupancy).orElse (fun _ => r.occupancy)
    adult_count := (optNum u.adult_count).orElse (fun _ => r.adult_count)
    child_count := (optNum u.child_count).orElse (fun _ => r.child_count)
    room_count := (optNum u.room_count).orElse (fun _ => r.room_count)
    hotel_details := r.hotel_details ++ hdOf u.hotel_details }

/-- Modelled from the spec: `update_request_booking` — the immutable
fields `destination`, `check_in`, `check_out` are rejected
unconditionally regardless of state (section 4.2, URB_N03–N05); the
update is otherwise valid only from `req_pending` or
`req_send_for_approval`. -/
def update_request_booking (st : SysState) (rbid : String) (u : URBPayload) :
    Except ApiError SysState :=
  if u.destination.isSome then .error (.validationError "Cannot change destination")
  else if u.check_in.isSome then .error (.validationError "Cannot change check_in")
  else if u.check_out.isSome then .error (.validationError "Cannot change check_out")
  else if rbid == "" then .error (.validationError "request_booking_id is required")
  else
    match findReq st rbid with
    | none => .error (.notFoundError "Request booking not found")
    | some rb =>
      if rb.status != "req_pending" && rb.status != "req_send_for_approval" then
        .error (.conflictError "Cannot update approved booking")
      else
        match optNum u.occupancy with
        | some n =>
          if n ≤ 0 then .error (.validationError "occupancy must be positive")
          else .ok (setReq st rbid (applyURB u))
        | none => .ok (setReq st rbid (applyURB u))

/-- Total price of one approved selection item, summed over its rooms. -/
def itemAmount (rb : ReqBooking) (it : SelItem) : Int :=
  match rb.hotel_details.find? (fun hd => hd.hotel_id == it.hotel_id) with
  | none => 0
  | some hd =>
    (it.room_ids.map (fun rid =>
      (((hd.rooms.find? (fun r => r.room_id == rid)).map (fun r => r.total_price)).getD 0))).foldl
      (fun a b => a + b) 0

/-- The payment amount: the sum of the approved rooms' total price. -/
def approvedAmount (rb : ReqBooking) : Int :=
  (rb.approved_items.map (itemAmount rb)).foldl (fun a b => a + b) 0

/-- Modelled from the spec: `create_payment_url` — mode enum validation
(CPU_N05), the booking must be `req_approved` with approved rooms and a
positive amount, and no active payment may already exist (CPU_N10);
creates the payment in `initiated` and moves the booking to
`req_payment_pending`. -/
def create_payment_url (st : SysState) (rbid mode : String) : Except ApiError SysState :=
  if rbid == "" then .error (.validationError "request_booking_id cannot be empty")
  else if mode == "" then .error (.validationError "mode cannot be empty")
  else if !(["direct_pay", "bill_to_company"].contains mode) then
    .error (.validationError "Invalid mode. Must be direct_pay or bill_to_company")
  else
    match findReq st rbid with
    | none => .error (.notFoundError "Request booking not found")
    | some rb =>
      if rb.status != "req_approved" then
        .error (.conflictError "Booking not approved for payment")
      else if rb.approved_items.isEmpty then
        .error (.validationError "No approved rooms found")
      else if approvedAmount rb ≤ 0 then
        .error (.validationError "Payment amount must be greater than 0")
      else if hasActivePayment st rbid then
        .error (.conflictError "Payment already exists")
      else
        let st1 := setReq st rbid (fun r => { r with status := "req_payment_pending" })
        .ok { st1 with
              payments := st1.payments ++
                [{ payment_id := "PAY-" ++ toString st.counter
                   mode := mode
                   pstatus := "initiated"
                   amount := approvedAmount rb
                   request_booking_id := rbid }]
              counter := st.counter + 1 }

/-- Modelled from the spec: `payment_callback` — status enum validation
(PC_N05); a callback for an already-terminal payment with the same
status is an idempotent success that leaves the state untouched, with a
different status it is the AlreadyProcessed conflict (PC_N07/PC_N11);
otherwise the payment takes the callback status, `success` advances the
booking to `req_payment_success` and `failure`/`cancel` revert it to
`req_approved` for retry. -/
def payment_callback (st : SysState) (pid cstatus : String) : Except ApiError SysState :=
  if pid == "" then .error (.validationError "payment_id cannot be empty")
  else if cstatus == "" then .error (.validationError "status cannot be empty")
  else if !terminalPayStatuses.contains cstatus then
    .error (.validationError "Invalid status. Must be success, failure, or cancel")
  else
    match findPay st pid with
    | none => .error (.notFoundError "Payment not found")
    | some p =>
      if isTerminalPay p.pstatus then
        if p.pstatus == cstatus then .ok st
        else .error (.conflictError "Payment already processed")
      else
        let st1 := setPay st pid (fun q => { q with pstatus := cstatus })
        .ok (setReq st1 p.request_booking_id (fun r =>
          if cstatus == "success" then { r with status := "req_payment_success" }
          else { r with status := "req_approved" }))

/-- The state-mutating operations of the documented API surface. -/
inductive Op where
  | confirmBooking (p : CBPayload)
  | createBooking (p : CBPayload)
  | storeReq (p : SRBPayload)
  | sendForApproval (rbid : String) (items : List SelItem)
  | approve (rbid employee : String) (items : List SelItem)
  | decline (rbid employee : String) (items : List SelItem)
  | updateReq (rbid : String) (u : URBPayload)
  | createPayment (rbid mode : String)
  | paymentCallback (pid cstatus : String)
deriving DecidableEq, Repr

/-- Dispatch one API operation against the persisted state. -/
def applyOp (st : SysState) : Op → Except ApiError SysState
  | .confirmBooking p => confirm_booking st p
  | .createBooking p => confirm_booking st p
  | .storeReq p => store_req_booking st p
  | .sendForApproval rbid items => send_for_approval st rbid items
  | .approve rbid employee items => approve_booking st rbid employee items
  | .decline rbid employee items => decline_booking st rbid employee items
  | .updateReq rbid u => update_request_booking st rbid u
  | .createPayment rbid mode => create_payment_url st rbid mode
  | .paymentCallback pid cstatus => payment_callback st pid cstatus

/-- Modelled from the spec: every mutating operation is transactional —
on success the new state is persisted, on any error the previous state
stands (section 7). -/
def runOp (st : SysState) (op : Op) : SysState :=
  match applyOp st op with
  | .ok st1 => st1
  | .error _ => st

/-- Run a whole sequence of API calls. -/
def applyOps (ops : List Op) (st : SysState) : SysState :=
  match ops with
  | [] => st
  | op :: rest => applyOps rest (runOp st op)

/-- A fresh deployment: empty repository, one approving employee, the
current date 2025-01-01. -/
def initSt : SysState :=
  { bookings := []
    reqBookings := []
    payments := []
    employees := ["EMP-001"]
    approvers := ["EMP-001"]
    today := (parseDate "2025-01-01").getD 0
    counter := 0 }

/-- The document state `tryInject` observes
(`destiin_crm_sidebar.js`): the number of elements carrying the
`data-destiin-menu="request-bookings"` marker, and, for each
`nav.flex.flex-col` element, how many sidebar links
(`a[class*="mx-2"]`) it contains. -/
structure CrmDoc where
  markers : Nat
  navs : List Nat
deriving DecidableEq, Repr

/-- The script's module state: the document plus the module-level
`injected` flag and `attempts` counter. -/
structure CrmState where
  doc : CrmDoc
  injected : Bool
  attempts : Nat
deriving DecidableEq, Repr

/-- `MAX_ATTEMPTS` of `destiin_crm_sidebar.js`. -/
def MAX_ATTEMPTS : Nat := 100

/-- `tryInject` of `destiin_crm_sidebar.js` lines 38–105: bail out when
already injected or out of attempts; count the attempt; if an element
with the `data-destiin-menu="request-bookings"` marker already exists,
only set the `injected` flag; otherwise look for the first sidebar nav
that has links and insert the cloned, marker-carrying link there;
otherwise schedule a retry (a later call) leaving everything as is. -/
def tryInject (s : CrmState) : CrmState :=
  if s.injected || MAX_ATTEMPTS ≤ s.attempts then s
  else
    let s1 : CrmState := { s with attempts := s.attempts + 1 }
    if 0 < s1.doc.markers then { s1 with injected := true }
    else
      match s1.doc.navs.find? (fun n => 0 < n) with
      | some _ =>
        { s1 with
          doc := { s1.doc with markers := s1.doc.markers + 1 }
          injected := true }
      | none => s1

/-- A whole run of triggers (timers, the MutationObserver, navigation
events): each trigger calls `tryInject` with whatever `injected` flag
and `attempts` counter the script happens to hold at that moment
(navigation resets them), threading the document through. -/
def runCalls (doc : CrmDoc) (flags : List (Bool × Nat)) : CrmDoc :=
  match flags with
  | [] => doc
  | (b, a) :: rest => runCalls (tryInject { doc := doc, injected := b, attempts := a }).doc rest

/-! ## Claim theorems -/

/-- Claim C1: a repeated `payment_callback` carrying the same terminal
status for a payment already in that terminal status returns success and
leaves the whole persisted state — in particular the payment record and
its request booking — unchanged. -/
theorem payment_callback_idempotent (st : SysState) (pid cstatus : String) (p : Payment)
    (hpid : pid ≠ "") (hfind : findPay st pid = some p)
    (hterm : p.pstatus ∈ terminalPayStatuses) (hsame : cstatus = p.pstatus) :
    payment_callback st pid cstatus = .ok st := by
  subst hsame
  have hmem := hterm
  simp only [terminalPayStatuses, List.mem_cons, List.not_mem_nil, or_false] at hmem
  unfold payment_callback
  rcases hmem with h | h | h <;>
    simp [h, hpid, hfind, isTerminalPay, terminalPayStatuses]

/-- A request booking with one hotel offer, sent for approval and
approved, used as concrete witness material. -/
def demoReq : ReqBooking :=
  { rid := "RB-0"
    employee := "EMP-001"
    company := none
    check_in := 20250301
    check_out := 20250305
    occupancy := none
    adult_count := none
    child_count := none
    room_count := none
    destination := none
    destination_code := none
    hotel_details := [{ hotel_id := "H001", rooms := [{ room_id := "R001", price := 100, total_price := 400 }] }]
    selected := [{ hotel_id := "H001", room_ids := ["R001"] }]
    approved_items := [{ hotel_id := "H001", room_ids := ["R001"] }]
    declined_items := []
    status := "req_payment_pending" }

/-- A state holding an already-successful payment for `demoReq`. -/
def paidSt : SysState :=
  { initSt with
    reqBookings := [{ demoReq with status := "req_payment_success" }]
    payments := [{ payment_id := "PAY-1", mode := "direct_pay", pstatus := "success",
                   amount := 400, request_booking_id := "RB-0" }]
    counter := 2 }

theorem payment_callback_idempotent_witness :
    payment_callback paidSt "PAY-1" "success" = .ok paidSt :=
  payment_callback_idempotent paidSt "PAY-1" "success"
    { payment_id := "PAY-1", mode := "direct_pay", pstatus := "success",
      amount := 400, request_booking_id := "RB-0" }
    (by decide) (by rfl) (by decide) rfl

/-- Claim C6: an update payload containing any of `check_in`,
`check_out` or `destination` is rejected whatever the record's status
and whatever the other fields hold, and the persisted state — so in
particular the stored record's `check_in`, `check_out` and
`destination` — is left exactly as it was. -/
theorem update_immutable_rejected (st : SysState) (rbid : String) (u : URBPayload)
    (h : u.check_in.isSome ∨ u.check_out.isSome ∨ u.destination.isSome) :
    (∃ e, update_request_booking st rbid u = .error e)
    ∧ runOp st (.updateReq rbid u) = st := by
  have herr : ∃ e, update_request_booking st rbid u = .error e := by
    unfold update_request_booking
    by_cases hd : u.destination.isSome
    · exact ⟨.validationError "Cannot change destination", by simp [hd]⟩
    · by_cases hi : u.check_in.isSome
      · exact ⟨.validationError "Cannot change check_in", by simp [hd, hi]⟩
      · have ho : u.check_out.isSome := by tauto
        exact ⟨.validationError "Cannot change check_out", by simp [hd, hi, ho]⟩
  refine ⟨herr, ?_⟩
  obtain ⟨e, he⟩ := herr
  simp [runOp, applyOp, he]

theorem update_immutable_rejected_witness :
    (∃ e, update_request_booking paidSt "RB-0"
        { check_in := some (.jstr "2025-04-01") } = .error e)
    ∧ runOp paidSt (.updateReq "RB-0" { check_in := some (.jstr "2025-04-01") }) = paidSt :=
  update_immutable_rejected paidSt "RB-0" { check_in := some (.jstr "2025-04-01") }
    (Or.inl (by decide))

/-- Claim C8: every state-mutating operation of the API surface is
atomic — whenever it reports an error, the persisted state after the
call is exactly the state before it; no partial write survives an error
path. -/
theorem mutating_ops_atomic (st : SysState) (op : Op) (e : ApiError)
    (h : applyOp st op = .error e) : runOp st op = st := by
  simp [runOp, h]

theorem mutating_ops_atomic_witness :
    runOp paidSt (.updateReq "RB-0" { destination := some (.jstr "Paris") }) = paidSt :=
  mutating_ops_atomic paidSt (.updateReq "RB-0" { destination := some (.jstr "Paris") })
    (.validationError "Cannot change destination") (by rfl)

/-- Claim C10: the CRM sidebar injection is at-most-once — whenever an
element matching the `data-destiin-menu="request-bookings"` selector
already exists, `tryInject` performs no DOM mutation (it only sets the
`injected` flag), and across any sequence of triggers (timers, the
MutationObserver, navigation events resetting the script flags) the
document never holds a second injected menu item. -/
theorem tryInject_at_most_once :
    (∀ s : CrmState, 0 < s.doc.markers → (tryInject s).doc = s.doc)
    ∧ (∀ (doc : CrmDoc) (flags : List (Bool × Nat)), doc.markers ≤ 1 →
        (runCalls doc flags).markers ≤ 1) := by
  have hnoop : ∀ s : CrmState, 0 < s.doc.markers → (tryInject s).doc = s.doc := by
    intro s h
    unfold tryInject
    split
    · rfl
    · simp [h]
  refine ⟨hnoop, ?_⟩
  intro doc flags
  induction flags generalizing doc with
  | nil => intro h; exact h
  | cons fa rest ih =>
    intro h
    obtain ⟨b, a⟩ := fa
    apply ih
    show (tryInject { doc := doc, injected := b, attempts := a }).doc.markers ≤ 1
    unfold tryInject
    split
    · exact h
    · by_cases hm : 0 < doc.markers
      · simpa [hm] using h
      · simp only [hm, if_false]
        split
        · simpa using Nat.le_of_not_lt hm
        · exact h

theorem tryInject_at_most_once_witness :
    (tryInject { doc := { markers := 1, navs := [5] }, injected := false, attempts := 0 }).doc
      = { markers := 1, navs := [5] }
    ∧ (runCalls { markers := 0, navs := [5] } [(false, 0), (false, 1), (true, 2)]).markers ≤ 1 :=
  ⟨tryInject_at_most_once.1
      { doc := { markers := 1, navs := [5] }, injected := false, attempts := 0 } (by decide),
    tryInject_at_most_once.2 { markers := 0, navs := [5] }
      [(false, 0), (false, 1), (true, 2)] (by decide)⟩

/-- Helper: a successful approve implies the record was found in
`req_send_for_approval`. -/
theorem approve_ok_status (st : SysState) (rbid employee : String) (items : List SelItem)
    (st1 : SysState) (h : approve_booking st rbid employee items = .ok st1) :
    ∃ rb, findReq st rbid = some rb ∧ rb.status = "req_send_for_approval" := by
  unfold approve_booking at h
  split at h
  · simp at h
  split at h
  · simp at h
  split at h
  · simp at h
  split at h
  · simp at h
  rename_i rb heq
  split at h
  · simp at h
  split at h
  · simp at h
  split at h
  · simp at h
  split at h
  · simp at h
  split at h
  · simp at h
  rename_i hsfa
  exact ⟨rb, heq, by simpa using hsfa⟩

/-- Claim C3: `approve_booking` succeeds only from
`req_send_for_approval` — a successful call implies the record was in
that status, a record in any other status always fails, and a record
already in `req_approved` fails with the documented AlreadyApproved
error once the payload itself is well-formed. -/
theorem approve_only_from_send_for_approval :
    (∀ (st : SysState) (rbid employee : String) (items : List SelItem) (st1 : SysState),
      approve_booking st rbid employee items = .ok st1 →
      ∃ rb, findReq st rbid = some rb ∧ rb.status = "req_send_for_approval")
    ∧ (∀ (st : SysState) (rbid employee : String) (items : List SelItem) (rb : ReqBooking),
      findReq st rbid = some rb → rb.status ≠ "req_send_for_approval" →
      ∃ e, approve_booking st rbid employee items = .error e)
    ∧ (∀ (st : SysState) (rbid employee : String) (items : List SelItem) (rb : ReqBooking),
      findReq st rbid = some rb → rb.status = "req_approved" →
      rbid ≠ "" → employee ≠ "" → items ≠ [] →
      st.employees.contains employee = true → st.approvers.contains employee = true →
      itemsError rb items = none →
      approve_booking st rbid employee items = .error (.conflictError "Booking already approved")) := by
  refine ⟨approve_ok_status, ?_, ?_⟩
  · intro st rbid employee items rb hfind hst
    match happ : approve_booking st rbid employee items with
    | .error e => exact ⟨e, rfl⟩
    | .ok st1 =>
      obtain ⟨rb', hfind', hst'⟩ := approve_ok_status st rbid employee items st1 happ
      rw [hfind] at hfind'
      cases hfind'
      exact absurd hst' hst
  · intro st rbid employee items rb hfind happr hrbid hemp hitems hemps happs hresolve
    unfold approve_booking
    have hm1 : employee ∈ st.employees := by simpa using hemps
    have hm2 : employee ∈ st.approvers := by simpa using happs
    rw [if_neg (by simp [hrbid]), if_neg (by simp [hemp]),
      if_neg (by simp [hitems]), hfind]
    simp [hm1, hm2, hresolve, happr]

/-- A state whose single request booking is waiting for approval. -/
def pendingApprovalSt : SysState :=
  { initSt with
    reqBookings := [{ demoReq with status := "req_send_for_approval", approved_items := [] }]
    counter := 1 }

/-- A state whose single request booking is already approved. -/
def approvedSt : SysState :=
  { initSt with
    reqBookings := [{ demoReq with status := "req_approved" }]
    counter := 1 }

theorem approve_only_from_send_for_approval_witness :
    (∃ rb, findReq pendingApprovalSt "RB-0" = some rb ∧ rb.status = "req_send_for_approval")
    ∧ (∃ e, approve_booking paidSt "RB-0" "EMP-001"
        [{ hotel_id := "H001", room_ids := ["R001"] }] = .error e)
    ∧ approve_booking approvedSt "RB-0" "EMP-001"
        [{ hotel_id := "H001", room_ids := ["R001"] }]
        = .error (.conflictError "Booking already approved") :=
  ⟨approve_only_from_send_for_approval.1 pendingApprovalSt "RB-0" "EMP-001"
      [{ hotel_id := "H001", room_ids := ["R001"] }] _ (by rfl),
    approve_only_from_send_for_approval.2.1 paidSt "RB-0" "EMP-001"
      [{ hotel_id := "H001", room_ids := ["R001"] }]
      { demoReq with status := "req_payment_success" } (by rfl) (by decide),
    approve_only_from_send_for_approval.2.2 approvedSt "RB-0" "EMP-001"
      [{ hotel_id := "H001", room_ids := ["R001"] }]
      { demoReq with status := "req_approved" } (by rfl) rfl (by decide) (by decide)
      (by decide) (by rfl) (by rfl) (by rfl)⟩

/-- Claim C5: on a payload violating several structural rules the
validator reports exactly one error — the head of the ordered list of
all violations, i.e. the first violated rule in the fixed rule order
taken in field-declaration order — never an aggregate; being a function
of the payload, it yields the same error on the same payload. -/
theorem validate_reports_first_violation (p : CBPayload)
    (h : 2 ≤ (cbViolations p).length) :
    validate_confirm_booking p = (cbViolations p).head?
    ∧ ∃ e, validate_confirm_booking p = some e := by
  have h1 : validate_confirm_booking p = (cbViolations p).head? :=
    runChecks_eq_head? cbChecks p
  refine ⟨h1, ?_⟩
  match hv : cbViolations p with
  | [] => rw [hv] at h; simp at h
  | e :: rest => exact ⟨e, by rw [h1, hv]; rfl⟩

/-- A confirm-booking payload violating two structural rules at once:
`clientReference` is missing and `numOfRooms` is zero. -/
def doublyBadCB : CBPayload :=
  { bookingId := some (.jstr "BK-9")
    hotelConfirmationNo := some (.jstr "HC-9")
    status := some (.jstr "confirmed")
    hotel := some (.hobj (some (.jstr "H001")))
    checkIn := some (.jstr "2025-03-01")
    checkOut := some (.jstr "2025-03-05")
    totalPrice := some (.jnum 500)
    numOfRooms := some (.jnum 0) }

theorem validate_reports_first_violation_witness :
    validate_confirm_booking doublyBadCB = (cbViolations doublyBadCB).head?
    ∧ ∃ e, validate_confirm_booking doublyBadCB = some e :=
  validate_reports_first_violation doublyBadCB (by decide)

/-- Helper: a passing run of the ordered checks passes every check. -/
theorem check_passes_of_valid {α : Type} {cs : List (α → Option ApiError)} {p : α}
    (h : runChecks cs p = none) {c : α → Option ApiError} (hc : c ∈ cs) : c p = none :=
  (runChecks_eq_none_iff cs p).mp h c hc

/-- Helper: a failing check makes the whole validation fail. -/
theorem validation_fails_of_check {α : Type} {cs : List (α → Option ApiError)} {p : α}
    {c : α → Option ApiError} (hc : c ∈ cs) {e : ApiError} (he : c p = some e) :
    ∃ e1, runChecks cs p = some e1 := by
  match hr : runChecks cs p with
  | some e1 => exact ⟨e1, rfl⟩
  | none =>
    have := (runChecks_eq_none_iff cs p).mp hr c hc
    rw [he] at this
    exact absurd this (by simp)

/-- Helper: the two date fields of an accepted payload parse and are
strictly ordered, given that the presence, non-emptiness, format and
order checks for them all passed. -/
theorem dates_ordered_of_checks {α : Type} {p : α} {getIn getOut : α → Option JVal}
    {n1 n2 m1 m2 mo : String}
    (hp1 : presentCheck getIn n1 p = none) (hp2 : presentCheck getOut n2 p = none)
    (he1 : nonEmptyCheck getIn n1 p = none) (he2 : nonEmptyCheck getOut n2 p = none)
    (hf1 : dateFormatCheck getIn m1 p = none) (hf2 : dateFormatCheck getOut m2 p = none)
    (ho : dateOrderCheck getIn getOut mo p = none) :
    ∃ di dOut, parseDate (getStr (getIn p)) = some di
      ∧ parseDate (getStr (getOut p)) = some dOut ∧ di < dOut := by
  have hin : ∃ di, parseDate (getStr (getIn p)) = some di := by
    unfold presentCheck at hp1
    unfold nonEmptyCheck at he1
    unfold dateFormatCheck at hf1
    match hv : getIn p with
    | none => rw [hv] at hp1; simp at hp1
    | some (.jnum n) => rw [hv] at hf1; simp at hf1
    | some (.jstr s) =>
      rw [hv] at he1 hf1
      have hs : s ≠ "" := by
        intro hcon; subst hcon; simp at he1
      match hps : parseDate s with
      | none => exfalso; simp [hs, hps] at hf1
      | some di => exact ⟨di, by simp [getStr, hv, hps]⟩
  have hout : ∃ dOut, parseDate (getStr (getOut p)) = some dOut := by
    unfold presentCheck at hp2
    unfold nonEmptyCheck at he2
    unfold dateFormatCheck at hf2
    match hv : getOut p with
    | none => rw [hv] at hp2; simp at hp2
    | some (.jnum n) => rw [hv] at hf2; simp at hf2
    | some (.jstr s) =>
      rw [hv] at he2 hf2
      have hs : s ≠ "" := by
        intro hcon; subst hcon; simp at he2
      match hps : parseDate s with
      | none => exfalso; simp [hs, hps] at hf2
      | some dOut => exact ⟨dOut, by simp [getStr, hv, hps]⟩
  obtain ⟨di, hdi⟩ := hin
  obtain ⟨dOut, hdOut⟩ := hout
  refine ⟨di, dOut, hdi, hdOut, ?_⟩
  unfold dateOrderCheck at ho
  rw [hdi, hdOut] at ho
  simp at ho
  omega

/-- Claim C9: every accepted booking payload and every accepted
request-booking payload has its check-out date strictly after its
check-in date, and any payload whose two dates parse with check-out
equal to or before check-in is rejected with a validation error. -/
theorem accepted_dates_strictly_ordered :
    (∀ p : CBPayload, validate_confirm_booking p = none →
      ∃ di dOut, parseDate (getStr p.checkIn) = some di
        ∧ parseDate (getStr p.checkOut) = some dOut ∧ di < dOut)
    ∧ (∀ (p : CBPayload) (di dOut : Nat), parseDate (getStr p.checkIn) = some di →
      parseDate (getStr p.checkOut) = some dOut → dOut ≤ di →
      ∃ e, validate_confirm_booking p = some e)
    ∧ (∀ (today : Nat) (p : SRBPayload), validate_store_req today p = none →
      ∃ di dOut, parseDate (getStr p.check_in) = some di
        ∧ parseDate (getStr p.check_out) = some dOut ∧ di < dOut)
    ∧ (∀ (today : Nat) (p : SRBPayload) (di dOut : Nat),
      parseDate (getStr p.check_in) = some di →
      parseDate (getStr p.check_out) = some dOut → dOut ≤ di →
      ∃ e, validate_store_req today p = some e) := by
  refine ⟨?_, ?_, ?_, ?_⟩
  · intro p h
    have hp1 : presentCheck (fun q : CBPayload => q.checkIn) "checkIn" p = none :=
      check_passes_of_valid h (by simp [cbChecks])
    have hp2 : presentCheck (fun q : CBPayload => q.checkOut) "checkOut" p = none :=
      check_passes_of_valid h (by simp [cbChecks])
    have he1 : nonEmptyCheck (fun q : CBPayload => q.checkIn) "checkIn" p = none :=
      check_passes_of_valid h (by simp [cbChecks])
    have he2 : nonEmptyCheck (fun q : CBPayload => q.checkOut) "checkOut" p = none :=
      check_passes_of_valid h (by simp [cbChecks])
    have hf1 : dateFormatCheck (fun q : CBPayload => q.checkIn)
        "Invalid date format for checkIn" p = none :=
      check_passes_of_valid h (by simp [cbChecks])
    have hf2 : dateFormatCheck (fun q : CBPayload => q.checkOut)
        "Invalid date format for checkOut" p = none :=
      check_passes_of_valid h (by simp [cbChecks])
    have ho : dateOrderCheck (fun q : CBPayload => q.checkIn) (fun q : CBPayload => q.checkOut)
        "checkOut must be after checkIn" p = none :=
      check_passes_of_valid h (by simp [cbChecks])
    exact dates_ordered_of_checks hp1 hp2 he1 he2 hf1 hf2 ho
  · intro p di dOut hdi hdOut hle
    refine validation_fails_of_check (c := dateOrderCheck (fun q : CBPayload => q.checkIn)
      (fun q : CBPayload => q.checkOut) "checkOut must be after checkIn")
      (by simp [cbChecks]) (e := .validationError "checkOut must be after checkIn") ?_
    unfold dateOrderCheck
    rw [hdi, hdOut]
    simp [hle]
  · intro today p h
    have hp1 : presentCheck (fun q : SRBPayload => q.check_in) "check_in" p = none :=
      check_passes_of_valid h (by simp [srbChecks])
    have hp2 : presentCheck (fun q : SRBPayload => q.check_out) "check_out" p = none :=
      check_passes_of_valid h (by simp [srbChecks])
    have he1 : nonEmptyCheck (fun q : SRBPayload => q.check_in) "check_in" p = none :=
      check_passes_of_valid h (by simp [srbChecks])
    have he2 : nonEmptyCheck (fun q : SRBPayload => q.check_out) "check_out" p = none :=
      check_passes_of_valid h (by simp [srbChecks])
    have hf1 : dateFormatCheck (fun q : SRBPayload => q.check_in)
        "Invalid date format" p = none :=
      check_passes_of_valid h (by simp [srbChecks])
    have hf2 : dateFormatCheck (fun q : SRBPayload => q.check_out)
        "Invalid date format" p = none :=
      check_passes_of_valid h (by simp [srbChecks])
    have ho : dateOrderCheck (fun q : SRBPayload => q.check_in) (fun q : SRBPayload => q.check_out)
        "check_out must be after check_in" p = none :=
      check_passes_of_valid h (by simp [srbChecks])
    exact dates_ordered_of_checks hp1 hp2 he1 he2 hf1 hf2 ho
  · intro today p di dOut hdi hdOut hle
    refine validation_fails_of_check (c := dateOrderCheck (fun q : SRBPayload => q.check_in)
      (fun q : SRBPayload => q.check_out) "check_out must be after check_in")
      (by simp [srbChecks]) (e := .validationError "check_out must be after check_in") ?_
    unfold dateOrderCheck
    rw [hdi, hdOut]
    simp [hle]

/-- A fully valid confirm-booking payload, CB_P01 of the test document. -/
def cbDemo : CBPayload :=
  { clientReference := some (.jstr "REQ-001")
    bookingId := some (.jstr "BK-001")
    hotelConfirmationNo := some (.jstr "HC-001")
    status := some (.jstr "confirmed")
    hotel := some (.hobj (some (.jstr "H001")))
    checkIn := some (.jstr "2025-03-01")
    checkOut := some (.jstr "2025-03-05")
    totalPrice := some (.jnum 500)
    numOfRooms := some (.jnum 2) }

/-- CB_N12 of the test document: check-out strictly before check-in. -/
def cbBackwards : CBPayload :=
  { cbDemo with
    clientReference := some (.jstr "REQ-N12")
    checkIn := some (.jstr "2025-03-10")
    checkOut := some (.jstr "2025-03-05") }

theorem accepted_dates_strictly_ordered_witness :
    (∃ di dOut, parseDate (getStr cbDemo.checkIn) = some di
      ∧ parseDate (getStr cbDemo.checkOut) = some dOut ∧ di < dOut)
    ∧ (∃ e, validate_confirm_booking cbBackwards = some e) :=
  ⟨accepted_dates_strictly_ordered.1 cbDemo (by rfl),
    accepted_dates_strictly_ordered.2.1 cbBackwards 20250310 20250305 (by rfl) (by rfl)
      (by decide)⟩

/-- Number of stored bookings carrying a given client reference. -/
def refCount (bs : List Booking) (ref : String) : Nat :=
  bs.countP (fun b => b.clientReference == ref)

/-- The uniqueness invariant: at most one stored booking per
`clientReference`. -/
def refInv (st : SysState) : Prop :=
  ∀ ref, refCount st.bookings ref ≤ 1

theorem refInv_of_bookings_eq {st st1 : SysState} (h : st1.bookings = st.bookings)
    (hinv : refInv st) : refInv st1 := by
  intro ref
  rw [refCount, h]
  exact hinv ref

/-- Upsert keeps the per-reference count at one. -/
theorem refCount_upsert (bs : List Booking) (b : Booking) (ref : String)
    (h : refCount bs ref ≤ 1) : refCount (upsertBooking bs b) ref ≤ 1 := by
  unfold refCount at h ⊢
  unfold upsertBooking
  by_cases hex : bs.any (fun x => x.clientReference == b.clientReference) = true
  · rw [if_pos hex, List.countP_map]
    by_cases href : b.clientReference = ref
    · subst href
      have hcongr : ∀ x ∈ bs,
          (((fun q : Booking => q.clientReference == b.clientReference) ∘
            (fun x : Booking => if x.clientReference == b.clientReference then b else x)) x = true)
          ↔ ((fun q : Booking => q.clientReference == b.clientReference) x = true) := by
        intro x _
        by_cases hx : (x.clientReference == b.clientReference) = true
        · have hx1 : x.clientReference = b.clientReference := by simpa using hx
          simp [Function.comp, hx, hx1]
        · simp [Function.comp, hx]
      rw [List.countP_congr hcongr]
      exact h
    · refine le_trans (List.countP_mono_left ?_) h
      intro x _ hx
      simp only [Function.comp] at hx
      by_cases hc : (x.clientReference == b.clientReference) = true
      · rw [if_pos hc] at hx
        exact absurd (by simpa using hx) (by simpa using href)
      · rwa [if_neg hc] at hx
  · rw [if_neg hex, List.countP_append]
    by_cases href : b.clientReference = ref
    · subst href
      have hz : bs.countP (fun q : Booking => q.clientReference == b.clientReference) = 0 := by
        rw [List.countP_eq_zero]
        intro x hx
        intro hc
        exact hex (List.any_eq_true.mpr ⟨x, hx, hc⟩)
      rw [hz]
      simp
    · have : ([b].countP (fun q : Booking => q.clientReference == ref)) = 0 := by
        simp [List.countP_cons, href]
      omega

/-- Shape of the booking table after a successful confirm/create call. -/
theorem confirm_bookings_shape (st : SysState) (p : CBPayload) (st1 : SysState)
    (h : confirm_booking st p = .ok st1) :
    st1.bookings = upsertBooking st.bookings (bookingOf p) := by
  unfold confirm_booking at h
  split at h
  · simp at h
  split at h
  · simp at h
  split at h
  · simp at h
  cases h
  rfl

/-- `store_req_booking` never touches the booking table. -/
theorem store_req_bookings_eq (st : SysState) (p : SRBPayload) (st1 : SysState)
    (h : store_req_booking st p = .ok st1) : st1.bookings = st.bookings := by
  unfold store_req_booking at h
  split at h
  · simp at h
  split at h
  · simp at h
  split at h
  · split at h
    · simp at h
    · cases h; simp [setReq]
  · cases h; rfl

/-- `send_for_approval` never touches the booking table. -/
theorem sfa_bookings_eq (st : SysState) (rbid : String) (items : List SelItem) (st1 : SysState)
    (h : send_for_approval st rbid items = .ok st1) : st1.bookings = st.bookings := by
  unfold send_for_approval at h
  split at h
  · simp at h
  split at h
  · simp at h
  split at h
  · simp at h
  split at h
  · simp at h
  split at h
  · simp at h
  split at h
  · simp at h
  cases h
  simp [setReq]

/-- `approve_booking` never touches the booking table. -/
theorem approve_bookings_eq (st : SysState) (rbid employee : String) (items : List SelItem)
    (st1 : SysState) (h : approve_booking st rbid employee items = .ok st1) :
    st1.bookings = st.bookings := by
  unfold approve_booking at h
  split at h
  · simp at h
  split at h
  · simp at h
  split at h
  · simp at h
  split at h
  · simp at h
  split at h
  · simp at h
  split at h
  · simp at h
  split at h
  · simp at h
  split at h
  · simp at h
  split at h
  · simp at h
  cases h
  simp [setReq]

/-- `decline_booking` never touches the booking table. -/
theorem decline_bookings_eq (st : SysState) (rbid employee : String) (items : List SelItem)
    (st1 : SysState) (h : decline_booking st rbid employee items = .ok st1) :
    st1.bookings = st.bookings := by
  unfold decline_booking at h
  split at h
  · simp at h
  split at h
  · simp at h
  split at h
  · simp at h
  split at h
  · simp at h
  split at h
  · simp at h
  split at h
  · simp at h
  split at h
  · simp at h
  split at h
  · simp at h
  cases h
  simp [setReq]

/-- `update_request_booking` never touches the booking table. -/
theorem update_bookings_eq (st : SysState) (rbid : String) (u : URBPayload) (st1 : SysState)
    (h : update_request_booking st rbid u = .ok st1) : st1.bookings = st.bookings := by
  unfold update_request_booking at h
  split at h
  · simp at h
  split at h
  · simp at h
  split at h
  · simp at h
  split at h
  · simp at h
  split at h
  · simp at h
  split at h
  · simp at h
  split at h
  · split at h
    · simp at h
    · cases h; simp [setReq]
  · cases h; simp [setReq]

/-- `create_payment_url` never touches the booking table. -/
theorem create_payment_bookings_eq (st : SysState) (rbid mode : String) (st1 : SysState)
    (h : create_payment_url st rbid mode = .ok st1) : st1.bookings = st.bookings := by
  unfold create_payment_url at h
  split at h
  · simp at h
  split at h
  · simp at h
  split at h
  · simp at h
  split at h
  · simp at h
  split at h
  · simp at h
  split at h
  · simp at h
  split at h
  · simp at h
  split at h
  · simp at h
  cases h
  simp [setReq]

/-- `payment_callback` never touches the booking table. -/
theorem callback_bookings_eq (st : SysState) (pid cstatus : String) (st1 : SysState)
    (h : payment_callback st pid cstatus = .ok st1) : st1.bookings = st.bookings := by
  unfold payment_callback at h
  split at h
  · simp at h
  split at h
  · simp at h
  split at h
  · simp at h
  split at h
  · simp at h
  split at h
  · split at h
    · cases h; rfl
    · simp at h
  · cases h; simp [setReq, setPay]

/-- The uniqueness invariant survives every API call. -/
theorem runOp_refInv (st : SysState) (op : Op) (h : refInv st) : refInv (runOp st op) := by
  unfold runOp
  match happ : applyOp st op with
  | .error e => exact h
  | .ok st1 =>
    cases op with
    | confirmBooking p =>
      intro ref
      rw [refCount, confirm_bookings_shape st p st1 happ]
      exact refCount_upsert st.bookings (bookingOf p) ref (h ref)
    | createBooking p =>
      intro ref
      rw [refCount, confirm_bookings_shape st p st1 happ]
      exact refCount_upsert st.bookings (bookingOf p) ref (h ref)
    | storeReq p => exact refInv_of_bookings_eq (store_req_bookings_eq st p st1 happ) h
    | sendForApproval rbid items => exact refInv_of_bookings_eq (sfa_bookings_eq st rbid items st1 happ) h
    | approve rbid employee items =>
      exact refInv_of_bookings_eq (approve_bookings_eq st rbid employee items st1 happ) h
    | decline rbid employee items =>
      exact refInv_of_bookings_eq (decline_bookings_eq st rbid employee items st1 happ) h
    | updateReq rbid u => exact refInv_of_bookings_eq (update_bookings_eq st rbid u st1 happ) h
    | createPayment rbid mode =>
      exact refInv_of_bookings_eq (create_payment_bookings_eq st rbid mode st1 happ) h
    | paymentCallback pid cstatus =>
      exact refInv_of_bookings_eq (callback_bookings_eq st pid cstatus st1 happ) h

theorem applyOps_refInv (ops : List Op) (st : SysState) (h : refInv st) :
    refInv (applyOps ops st) := by
  induction ops generalizing st with
  | nil => exact h
  | cons op rest ih => exact ih (runOp st op) (runOp_refInv st op h)

/-- Claim C2: across any sequence of confirm/create booking calls the
store never holds two records with the same `clientReference` — a
resubmission of an existing reference updates the record in place
(the booking list keeps its length), it never appends a duplicate. -/
theorem clientReference_upsert_law :
    (∀ (ops : List Op) (ref : String), refCount (applyOps ops initSt).bookings ref ≤ 1)
    ∧ (∀ (bs : List Booking) (b : Booking),
      bs.any (fun x => x.clientReference == b.clientReference) = true →
      (upsertBooking bs b).length = bs.length) := by
  constructor
  · intro ops ref
    exact applyOps_refInv ops initSt (by intro r; simp [refCount, initSt]) ref
  · intro bs b hex
    unfold upsertBooking
    rw [if_pos hex, List.length_map]

/-- CB_P08 of the test document: resubmission of `REQ-001` with changed
booking id, confirmation number and price. -/
def cbDemoUpd : CBPayload :=
  { cbDemo with
    bookingId := some (.jstr "BK-001-UPD")
    hotelConfirmationNo := some (.jstr "HC-001-UPD")
    totalPrice := some (.jnum 550) }

theorem clientReference_upsert_law_witness :
    refCount (applyOps [.confirmBooking cbDemo, .confirmBooking cbDemoUpd]
      initSt).bookings "REQ-001" ≤ 1
    ∧ (upsertBooking [bookingOf cbDemo] (bookingOf cbDemoUpd)).length
        = [bookingOf cbDemo].length :=
  ⟨clientReference_upsert_law.1 [.confirmBooking cbDemo, .confirmBooking cbDemoUpd] "REQ-001",
    clientReference_upsert_law.2 [bookingOf cbDemo] (bookingOf cbDemoUpd) (by decide)⟩

/-- The payment invariant: at most one active (non-terminal) payment
per request booking. -/
def payInv (st : SysState) : Prop :=
  ∀ rbid, st.payments.countP (activeFor rbid) ≤ 1

theorem payInv_of_payments_eq {st st1 : SysState} (h : st1.payments = st.payments)
    (hinv : payInv st) : payInv st1 := by
  intro rbid
  rw [h]
  exact hinv rbid

/-- `confirm_booking` never touches the payment or request tables. -/
theorem confirm_others_eq (st : SysState) (p : CBPayload) (st1 : SysState)
    (h : confirm_booking st p = .ok st1) :
    st1.payments = st.payments ∧ st1.reqBookings = st.reqBookings := by
  unfold confirm_booking at h
  split at h
  · simp at h
  split at h
  · simp at h
  split at h
  · simp at h
  cases h
  exact ⟨rfl, rfl⟩

/-- `store_req_booking` never touches the payment table. -/
theorem store_payments_eq (st : SysState) (p : SRBPayload) (st1 : SysState)
    (h : store_req_booking st p = .ok st1) : st1.payments = st.payments := by
  unfold store_req_booking at h
  split at h
  · simp at h
  split at h
  · simp at h
  split at h
  · split at h
    · simp at h
    · cases h; simp [setReq]
  · cases h; rfl

/-- `send_for_approval` never touches the payment table. -/
theorem sfa_payments_eq (st : SysState) (rbid : String) (items : List SelItem) (st1 : SysState)
    (h : send_for_approval st rbid items = .ok st1) : st1.payments = st.payments := by
  unfold send_for_approval at h
  split at h
  · simp at h
  split at h
  · simp at h
  split at h
  · simp at h
  split at h
  · simp at h
  split at h
  · simp at h
  split at h
  · simp at h
  cases h
  simp [setReq]

/-- `approve_booking` never touches the payment table. -/
theorem approve_payments_eq (st : SysState) (rbid employee : String) (items : List SelItem)
    (st1 : SysState) (h : approve_booking st rbid employee items = .ok st1) :
    st1.payments = st.payments := by
  unfold approve_booking at h
  split at h
  · simp at h
  split at h
  · simp at h
  split at h
  · simp at h
  split at h
  · simp at h
  split at h
  · simp at h
  split at h
  · simp at h
  split at h
  · simp at h
  split at h
  · simp at h
  split at h
  · simp at h
  cases h
  simp [setReq]

/-- `decline_booking` never touches the payment table. -/
theorem decline_payments_eq (st : SysState) (rbid employee : String) (items : List SelItem)
    (st1 : SysState) (h : decline_booking st rbid employee items = .ok st1) :
    st1.payments = st.payments := by
  unfold decline_booking at h
  split at h
  · simp at h
  split at h
  · simp at h
  split at h
  · simp at h
  split at h
  · simp at h
  split at h
  · simp at h
  split at h
  · simp at h
  split at h
  · simp at h
  split at h
  · simp at h
  cases h
  simp [setReq]

/-- `update_request_booking` never touches the payment table. -/
theorem update_payments_eq (st : SysState) (rbid : String) (u : URBPayload) (st1 : SysState)
    (h : update_request_booking st rbid u = .ok st1) : st1.payments = st.payments := by
  unfold update_request_booking at h
  split at h
  · simp at h
  split at h
  · simp at h
  split at h
  · simp at h
  split at h
  · simp at h
  split at h
  · simp at h
  split at h
  · simp at h
  split at h
  · split at h
    · simp at h
    · cases h; simp [setReq]
  · cases h; simp [setReq]

/-- Shape of the payment table after a successful payment creation: the
call checked that no active payment existed and appended the fresh
`initiated` payment for this booking. -/
theorem create_payment_shape (st : SysState) (rbid mode : String) (st1 : SysState)
    (h : create_payment_url st rbid mode = .ok st1) :
    hasActivePayment st rbid = false
    ∧ st1.payments = st.payments ++
        [{ payment_id := "PAY-" ++ toString st.counter, mode := mode, pstatus := "initiated",
           amount := approvedAmount ((findReq st rbid).getD demoReq),
           request_booking_id := rbid }] := by
  unfold create_payment_url at h
  split at h
  · simp at h
  split at h
  · simp at h
  split at h
  · simp at h
  split at h
  · simp at h
  rename_i rb hrb
  split at h
  · simp at h
  split at h
  · simp at h
  split at h
  · simp at h
  split at h
  · simp at h
  rename_i hact
  cases h
  refine ⟨by simpa using hact, ?_⟩
  simp [setReq, hrb]

/-- Shape of the payment table after a successful payment callback:
either untouched (the idempotent duplicate), or the referenced payment
rewritten to the terminal callback status. -/
theorem callback_payments_shape (st : SysState) (pid cstatus : String) (st1 : SysState)
    (h : payment_callback st pid cstatus = .ok st1) :
    st1.payments = st.payments
    ∨ (terminalPayStatuses.contains cstatus = true
      ∧ st1.payments = st.payments.map
          (fun q => if q.payment_id == pid then { q with pstatus := cstatus } else q)) := by
  unfold payment_callback at h
  split at h
  · simp at h
  split at h
  · simp at h
  split at h
  · simp at h
  rename_i hterm
  split at h
  · simp at h
  split at h
  · split at h
    · cases h; exact Or.inl rfl
    · simp at h
  · cases h
    refine Or.inr ⟨by simpa using hterm, ?_⟩
    simp [setReq, setPay]

/-- Appending a fresh payment keeps the invariant when no active
payment existed for its booking. -/
theorem payInv_append (st : SysState) (np : Payment)
    (hno : hasActivePayment st np.request_booking_id = false) (h : payInv st) :
    ∀ rbid, (st.payments ++ [np]).countP (activeFor rbid) ≤ 1 := by
  intro rbid
  rw [List.countP_append]
  by_cases hr : np.request_booking_id = rbid
  · have hz : st.payments.countP (activeFor rbid) = 0 := by
      rw [List.countP_eq_zero]
      intro q hq hcq
      rw [← hr] at hcq
      unfold hasActivePayment at hno
      have : st.payments.any (activeFor np.request_booking_id) = true :=
        List.any_eq_true.mpr ⟨q, hq, hcq⟩
      rw [hno] at this
      exact absurd this (by simp)
    rw [hz]
    have : [np].countP (activeFor rbid) ≤ [np].length := List.countP_le_length _
    simpa using this
  · have hz : [np].countP (activeFor rbid) = 0 := by
      simp [List.countP_cons, activeFor, hr]
    rw [hz]
    simpa using h rbid

/-- Rewriting one payment to a terminal status never increases the
number of active payments. -/
theorem payInv_map_terminal (st : SysState) (pid cstatus : String)
    (hterm : terminalPayStatuses.contains cstatus = true) (h : payInv st) :
    ∀ rbid, (st.payments.map
      (fun q => if q.payment_id == pid then { q with pstatus := cstatus } else q)).countP
        (activeFor rbid) ≤ 1 := by
  intro rbid
  rw [List.countP_map]
  refine le_trans (List.countP_mono_left ?_) (h rbid)
  intro q _ hq
  simp only [Function.comp] at hq
  by_cases hc : (q.payment_id == pid) = true
  · rw [if_pos hc] at hq
    unfold activeFor isTerminalPay at hq
    rw [hterm] at hq
    simp at hq
  · rwa [if_neg hc] at hq

/-- The payment invariant survives every API call. -/
theorem runOp_payInv (st : SysState) (op : Op) (h : payInv st) : payInv (runOp st op) := by
  unfold runOp
  match happ : applyOp st op with
  | .error e => exact h
  | .ok st1 =>
    cases op with
    | confirmBooking p => exact payInv_of_payments_eq (confirm_others_eq st p st1 happ).1 h
    | createBooking p => exact payInv_of_payments_eq (confirm_others_eq st p st1 happ).1 h
    | storeReq p => exact payInv_of_payments_eq (store_payments_eq st p st1 happ) h
    | sendForApproval rbid items =>
      exact payInv_of_payments_eq (sfa_payments_eq st rbid items st1 happ) h
    | approve rbid employee items =>
      exact payInv_of_payments_eq (approve_payments_eq st rbid employee items st1 happ) h
    | decline rbid employee items =>
      exact payInv_of_payments_eq (decline_payments_eq st rbid employee items st1 happ) h
    | updateReq rbid u => exact payInv_of_payments_eq (update_payments_eq st rbid u st1 happ) h
    | createPayment rbid mode =>
      obtain ⟨hno, hshape⟩ := create_payment_shape st rbid mode st1 happ
      intro r
      rw [payInv] at h
      rw [hshape]
      exact payInv_append st _ (by simpa using hno) h r
    | paymentCallback pid cstatus =>
      rcases callback_payments_shape st pid cstatus st1 happ with heq | ⟨hterm, hshape⟩
      · exact payInv_of_payments_eq heq h
      · intro r
        rw [hshape]
        exact payInv_map_terminal st pid cstatus hterm h r

theorem applyOps_payInv (ops : List Op) (st : SysState) (h : payInv st) :
    payInv (applyOps ops st) := by
  induction ops generalizing st with
  | nil => exact h
  | cons op rest ih => exact ih (runOp st op) (runOp_payInv st op h)

/-- Claim C7: at most one active (non-terminal) payment ever exists per
request booking — `create_payment_url` invoked while an active payment
exists is rejected and leaves the state untouched, and along any
sequence of API calls from a fresh deployment the number of active
payments per booking never exceeds one. -/
theorem single_active_payment :
    (∀ (st : SysState) (rbid mode : String), hasActivePayment st rbid = true →
      (∃ e, create_payment_url st rbid mode = .error e)
      ∧ runOp st (.createPayment rbid mode) = st)
    ∧ (∀ (ops : List Op) (rbid : String),
      (applyOps ops initSt).payments.countP (activeFor rbid) ≤ 1) := by
  constructor
  · intro st rbid mode hact
    have herr : ∃ e, create_payment_url st rbid mode = .error e := by
      match hc : create_payment_url st rbid mode with
      | .error e => exact ⟨e, rfl⟩
      | .ok st1 =>
        obtain ⟨hno, _⟩ := create_payment_shape st rbid mode st1 hc
        rw [hact] at hno
        exact absurd hno (by simp)
    obtain ⟨e, he⟩ := herr
    exact ⟨⟨e, he⟩, by simp [runOp, applyOp, he]⟩
  · intro ops rbid
    exact applyOps_payInv ops initSt (by intro r; simp [payInv, initSt]) rbid

/-- The race situation: an approved booking that already carries an
`initiated` payment. -/
def activePaySt : SysState :=
  { initSt with
    reqBookings := [{ demoReq with status := "req_approved" }]
    payments := [{ payment_id := "PAY-1", mode := "direct_pay", pstatus := "initiated",
                   amount := 400, request_booking_id := "RB-0" }]
    counter := 2 }

/-- SRB_P05-style store payload used by concrete runs. -/
def srbDemo : SRBPayload :=
  { employee := some (.jstr "EMP-001")
    check_in := some (.jstr "2025-03-01")
    check_out := some (.jstr "2025-03-05")
    hotel_details := some (.hdobj (some (.jstr "H001"))
      [{ room_id := some (.jstr "R001"), price := some (.jnum 100),
         total_price := some (.jnum 400) }]) }

/-- The selection used throughout the concrete runs. -/
def demoItems : List SelItem := [{ hotel_id := "H001", room_ids := ["R001"] }]

/-- The happy-path call sequence of the test document's execution order:
store, send for approval, approve, create payment, success callback. -/
def happyOps : List Op :=
  [.storeReq srbDemo, .sendForApproval "RB-0" demoItems,
   .approve "RB-0" "EMP-001" demoItems, .createPayment "RB-0" "direct_pay",
   .paymentCallback "PAY-1" "success"]

theorem single_active_payment_witness :
    ((∃ e, create_payment_url activePaySt "RB-0" "direct_pay" = .error e)
      ∧ runOp activePaySt (.createPayment "RB-0" "direct_pay") = activePaySt)
    ∧ (applyOps happyOps initSt).payments.countP (activeFor "RB-0") ≤ 1 :=
  ⟨single_active_payment.1 activePaySt "RB-0" "direct_pay" (by rfl),
    single_active_payment.2 happyOps "RB-0"⟩

/-- Modelled from the spec: the status set the data-model section
declares for `RequestBookingDetails` (section 3) — six values, without
`req_declined`. -/
def declaredReqStatuses : List String :=
  ["req_pending", "req_send_for_approval", "req_approved", "req_payment_pending",
   "req_payment_success", "req_closed"]

/-- The statuses the workflow state machine actually produces: the
declared six plus the alternate terminal `req_declined` that
`decline_booking` writes (section 4.2). -/
def allReqStatuses : List String :=
  declaredReqStatuses ++ ["req_declined"]

/-- The status invariant: every stored request booking carries one of
the workflow's statuses. -/
def statusInv (st : SysState) : Prop :=
  ∀ rb ∈ st.reqBookings, rb.status ∈ allReqStatuses

theorem statusInv_of_reqs_eq {st st1 : SysState} (h : st1.reqBookings = st.reqBookings)
    (hinv : statusInv st) : statusInv st1 := by
  intro rb hrb
  rw [h] at hrb
  exact hinv rb hrb

/-- Membership in an in-place-updated request table comes from an old
record, possibly rewritten. -/
theorem mem_setReq {rb : ReqBooking} {st : SysState} {rbid : String}
    {f : ReqBooking → ReqBooking} (h : rb ∈ (setReq st rbid f).reqBookings) :
    (∃ r ∈ st.reqBookings, rb = f r) ∨ rb ∈ st.reqBookings := by
  simp only [setReq, List.mem_map] at h
  obtain ⟨r, hr, heq⟩ := h
  by_cases hc : (r.rid == rbid) = true
  · left
    exact ⟨r, hr, by rw [← heq, if_pos hc]⟩
  · right
    rw [← heq, if_neg hc]
    exact hr

/-- An in-place update whose rewrite either keeps the status or writes
a workflow status preserves the invariant. -/
theorem statusInv_setReq (st : SysState) (rbid : String) (f : ReqBooking → ReqBooking)
    (hf : ∀ r, (f r).status = r.status ∨ (f r).status ∈ allReqStatuses)
    (hinv : statusInv st) : statusInv (setReq st rbid f) := by
  intro rb hrb
  rcases mem_setReq hrb with ⟨r, hr, rfl⟩ | hrb1
  · rcases hf r with heq | hin
    · rw [heq]
      exact hinv r hr
    · exact hin
  · exact hinv rb hrb1

theorem store_statusInv (st : SysState) (p : SRBPayload) (st1 : SysState)
    (h : store_req_booking st p = .ok st1) (hinv : statusInv st) : statusInv st1 := by
  unfold store_req_booking at h
  split at h
  · simp at h
  split at h
  · simp at h
  split at h
  · split at h
    · simp at h
    · cases h
      exact statusInv_setReq st _ _ (fun r => Or.inl rfl) hinv
  · cases h
    intro rb hrb
    simp only [List.mem_append, List.mem_singleton] at hrb
    rcases hrb with hrb | hrb
    · exact hinv rb hrb
    · subst hrb
      simp [newReqBooking, allReqStatuses, declaredReqStatuses]

theorem sfa_statusInv (st : SysState) (rbid : String) (items : List SelItem) (st1 : SysState)
    (h : send_for_approval st rbid items = .ok st1) (hinv : statusInv st) : statusInv st1 := by
  unfold send_for_approval at h
  split at h
  · simp at h
  split at h
  · simp at h
  split at h
  · simp at h
  split at h
  · simp at h
  split at h
  · simp at h
  split at h
  · simp at h
  cases h
  refine statusInv_setReq st _ _ (fun r => Or.inr ?_) hinv
  simp [allReqStatuses, declaredReqStatuses]

theorem approve_statusInv (st : SysState) (rbid employee : String) (items : List SelItem)
    (st1 : SysState) (h : approve_booking st rbid employee items = .ok st1)
    (hinv : statusInv st) : statusInv st1 := by
  unfold approve_booking at h
  split at h
  · simp at h
  split at h
  · simp at h
  split at h
  · simp at h
  split at h
  · simp at h
  split at h
  · simp at h
  split at h
  · simp at h
  split at h
  · simp at h
  split at h
  · simp at h
  split at h
  · simp at h
  cases h
  refine statusInv_setReq st _ _ (fun r => Or.inr ?_) hinv
  simp [allReqStatuses, declaredReqStatuses]

theorem decline_statusInv (st : SysState) (rbid employee : String) (items : List SelItem)
    (st1 : SysState) (h : decline_booking st rbid employee items = .ok st1)
    (hinv : statusInv st) : statusInv st1 := by
  unfold decline_booking at h
  split at h
  · simp at h
  split at h
  · simp at h
  split at h
  · simp at h
  split at h
  · simp at h
  split at h
  · simp at h
  split at h
  · simp at h
  split at h
  · simp at h
  split at h
  · simp at h
  cases h
  refine statusInv_setReq st _ _ (fun r => Or.inr ?_) hinv
  simp [allReqStatuses, declaredReqStatuses]

theorem update_statusInv (st : SysState) (rbid : String) (u : URBPayload) (st1 : SysState)
    (h : update_request_booking st rbid u = .ok st1) (hinv : statusInv st) : statusInv st1 := by
  unfold update_request_booking at h
  split at h
  · simp at h
  split at h
  · simp at h
  split at h
  · simp at h
  split at h
  · simp at h
  split at h
  · simp at h
  split at h
  · simp at h
  split at h
  · split at h
    · simp at h
    · cases h
      exact statusInv_setReq st _ _ (fun r => Or.inl rfl) hinv
  · cases h
    exact statusInv_setReq st _ _ (fun r => Or.inl rfl) hinv

theorem create_payment_statusInv (st : SysState) (rbid mode : String) (st1 : SysState)
    (h : create_payment_url st rbid mode = .ok st1) (hinv : statusInv st) : statusInv st1 := by
  unfold create_payment_url at h
  split at h
  · simp at h
  split at h
  · simp at h
  split at h
  · simp at h
  split at h
  · simp at h
  split at h
  · simp at h
  split at h
  · simp at h
  split at h
  · simp at h
  split at h
  · simp at h
  cases h
  intro rb hrb
  have : rb ∈ (setReq st rbid (fun r => { r with status := "req_payment_pending" })).reqBookings := hrb
  refine statusInv_setReq st _ _ (fun r => Or.inr ?_) hinv rb this
  simp [allReqStatuses, declaredReqStatuses]

theorem callback_statusInv (st : SysState) (pid cstatus : String) (st1 : SysState)
    (h : payment_callback st pid cstatus = .ok st1) (hinv : statusInv st) : statusInv st1 := by
  unfold payment_callback at h
  split at h
  · simp at h
  split at h
  · simp at h
  split at h
  · simp at h
  split at h
  · simp at h
  split at h
  · split at h
    · cases h; exact hinv
    · simp at h
  · cases h
    have hmid : statusInv (setPay st pid (fun q => { q with pstatus := cstatus })) :=
      statusInv_of_reqs_eq (by simp [setPay]) hinv
    refine statusInv_setReq _ _ _ (fun r => Or.inr ?_) hmid
    by_cases hc : (cstatus == "success") = true
    · simp [hc, allReqStatuses, declaredReqStatuses]
    · simp [hc, allReqStatuses, declaredReqStatuses]

/-- The status invariant survives every API call. -/
theorem runOp_statusInv (st : SysState) (op : Op) (h : statusInv st) :
    statusInv (runOp st op) := by
  unfold runOp
  match happ : applyOp st op with
  | .error e => exact h
  | .ok st1 =>
    cases op with
    | confirmBooking p => exact statusInv_of_reqs_eq (confirm_others_eq st p st1 happ).2 h
    | createBooking p => exact statusInv_of_reqs_eq (confirm_others_eq st p st1 happ).2 h
    | storeReq p => exact store_statusInv st p st1 happ h
    | sendForApproval rbid items => exact sfa_statusInv st rbid items st1 happ h
    | approve rbid employee items => exact approve_statusInv st rbid employee items st1 happ h
    | decline rbid employee items => exact decline_statusInv st rbid employee items st1 happ h
    | updateReq rbid u => exact update_statusInv st rbid u st1 happ h
    | createPayment rbid mode => exact create_payment_statusInv st rbid mode st1 happ h
    | paymentCallback pid cstatus => exact callback_statusInv st pid cstatus st1 happ h

theorem applyOps_statusInv (ops : List Op) (st : SysState) (h : statusInv st) :
    statusInv (applyOps ops st) := by
  induction ops generalizing st with
  | nil => exact h
  | cons op rest ih => exact ih (runOp st op) (runOp_statusInv st op h)

/-- The run that declines a request: store, send for approval, decline. -/
def declineOps : List Op :=
  [.storeReq srbDemo, .sendForApproval "RB-0" demoItems,
   .decline "RB-0" "EMP-001" demoItems]

/-- Claim C4, counterexample: after store → send-for-approval → decline
the stored record's status is `req_declined`, which is not in the six
statuses the data-model section declares — so not every workflow
transition lands in the declared set. -/
theorem declared_status_set_counterexample :
    ∃ rb ∈ (applyOps declineOps initSt).reqBookings,
      rb.status = "req_declined" ∧ rb.status ∉ declaredReqStatuses := by
  decide

/-- Claim C4 (amended): records start in `req_pending` on a first
`store_req_booking`, and every reachable record's status is drawn from
the declared set extended with the alternate terminal `req_declined`
that `decline_booking` produces. -/
theorem reachable_statuses :
    (∀ ops : List Op, ∀ rb ∈ (applyOps ops initSt).reqBookings, rb.status ∈ allReqStatuses)
    ∧ (∀ (st : SysState) (p : SRBPayload) (st1 : SysState), p.request_booking_id = none →
      store_req_booking st p = .ok st1 →
      st1.reqBookings.map (fun r => r.status)
        = st.reqBookings.map (fun r => r.status) ++ ["req_pending"]) := by
  constructor
  · intro ops
    exact applyOps_statusInv ops initSt (by intro rb hrb; simp [initSt] at hrb)
  · intro st p st1 hnone h
    unfold store_req_booking at h
    split at h
    · simp at h
    split at h
    · simp at h
    split at h
    · rename_i rbid heq
      rw [hnone] at heq
      exact absurd heq (by simp)
    · cases h
      simp [newReqBooking]

/-- The record left behind by the decline run. -/
def declinedRB : ReqBooking :=
  { demoReq with
    status := "req_declined"
    selected := demoItems
    approved_items := []
    declined_items := demoItems }

theorem reachable_statuses_witness :
    declinedRB.status ∈ allReqStatuses
    ∧ ((applyOps [.storeReq srbDemo] initSt).reqBookings.map (fun r => r.status)
        = initSt.reqBookings.map (fun r => r.status) ++ ["req_pending"]) :=
  ⟨reachable_statuses.1 declineOps declinedRB (by decide),
    reachable_statuses.2 initSt srbDemo (applyOps [.storeReq srbDemo] initSt) rfl (by rfl)⟩

end Destiin
